import Mathlib

/-!
Verification of the Gradely dashboard script
(src/staticfiles/dashboard/js/dashboard.js).

The script consists of two immediately-invoked modules run once at page
load: a theme controller and a collapsible-sidebar controller.  Both read
and write a browser key-value store (localStorage keys "theme" and
"sidebarState") and mutate DOM state (the data-theme attribute on the
document element, the is-collapsed class on the sidebar and container
elements, and aria attributes on the toggle button).

We embed the page as a record `St` of the observable DOM and storage
state, a record `Env` of the static facts about the page (which elements
exist, whether the system color-scheme preference is dark), and give each
operation of the script as a pure function `St → St × List Eff`, where
the `Eff` trace records the side effects the operation performs, in
program order.  Element lookups (getElementById) and DOM reads
(getAttribute, classList.contains) are not effects; storage reads and
writes, DOM mutations and listener registrations are.
-/

namespace Gradely

/-- JavaScript truthiness of a nullable string, as the script uses it in
`if (theme)` and in `getAttribute(..) || "light"`: null and the empty
string are falsy, every other string is truthy. -/
def jsTruthy : Option String → Bool
  | none => false
  | some s => if s = "" then false else true

/-- The observable DOM and storage state the script reads and mutates.
`dataTheme` is the data-theme attribute of document.documentElement
(`none` when the attribute is unset); `checkboxChecked` the checked
property of the theme toggle checkbox (meaningful when the checkbox
exists); `storageTheme` and `storageSidebar` the localStorage values
under the keys "theme" and "sidebarState" (`none` when absent);
`sidebarCollapsed` and `containerCollapsed` whether the class list of
the sidebar and of the container contains "is-collapsed"; `ariaExpanded`
and `ariaLabel` the corresponding attributes of the toggle button. -/
structure St where
  dataTheme : Option String
  checkboxChecked : Bool
  storageTheme : Option String
  storageSidebar : Option String
  sidebarCollapsed : Bool
  containerCollapsed : Bool
  ariaExpanded : Option String
  ariaLabel : Option String
deriving DecidableEq, Repr

/-- The static environment of one page load: which of the optional DOM
elements exist, and whether `window.matchMedia` reports a dark
color-scheme preference (false also when matchMedia itself is missing,
matching the conjunction `window.matchMedia && window.matchMedia(...)`
in the script). -/
structure Env where
  checkboxPresent : Bool
  sidebarPresent : Bool
  containerPresent : Bool
  buttonPresent : Bool
  prefersDark : Bool
deriving DecidableEq, Repr

/-- One side effect of the script, in program order: a storage read or
write, a DOM attribute write, a class-list mutation, a write to the
checkbox checked property, or a listener registration. -/
inductive Eff where
  | getItem (key : String)
  | setItem (key value : String)
  | setAttr (element attrName value : String)
  | classAdd (element cls : String)
  | classRemove (element cls : String)
  | setChecked (value : Bool)
  | addListener (element event : String)
deriving DecidableEq, Repr

/-- `toggleTheme` of the script: reads the data-theme attribute of the
document element (an unset or empty attribute reads as "light"), flips
dark to light and anything else to dark, writes the new value to the
attribute and persists it under the storage key "theme". -/
def toggleTheme (s : St) : St × List Eff :=
  let currentTheme := if jsTruthy s.dataTheme then s.dataTheme.getD "light" else "light"
  let newTheme := if currentTheme = "dark" then "light" else "dark"
  ({ s with dataTheme := some newTheme, storageTheme := some newTheme },
   [Eff.setAttr "documentElement" "data-theme" newTheme,
    Eff.setItem "theme" newTheme])

/-- The theme module body run at page load: reads the stored "theme"
value; when it is truthy, copies it verbatim to the data-theme attribute
and, when it is exactly "dark" and the checkbox exists, sets the
checkbox checked; otherwise, when the system prefers dark, applies dark
the same way; otherwise does nothing.  Finally registers the change
listener on the checkbox when the checkbox exists. -/
def themeInit (env : Env) (s : St) : St × List Eff :=
  let theme := s.storageTheme
  let readEffs := [Eff.getItem "theme"]
  let p :=
    if jsTruthy theme then
      let t := theme.getD "light"
      let s2 : St := { s with dataTheme := some t }
      let e2 := [Eff.setAttr "documentElement" "data-theme" t]
      if t = "dark" ∧ env.checkboxPresent = true then
        ({ s2 with checkboxChecked := true }, e2 ++ [Eff.setChecked true])
      else (s2, e2)
    else if env.prefersDark then
      let s2 : St := { s with dataTheme := some "dark" }
      let e2 := [Eff.setAttr "documentElement" "data-theme" "dark"]
      if env.checkboxPresent then
        ({ s2 with checkboxChecked := true }, e2 ++ [Eff.setChecked true])
      else (s2, e2)
    else (s, [])
  let listenEffs :=
    if env.checkboxPresent then [Eff.addListener "theme-toggle-checkbox" "change"]
    else []
  (p.1, readEffs ++ p.2 ++ listenEffs)

/-- `collapseSidebar` of the script: adds is-collapsed to the sidebar
and container class lists, sets aria-expanded to "false" and aria-label
to "Expand sidebar" on the toggle button, and persists "collapsed" under
the storage key "sidebarState". -/
def collapseSidebar (s : St) : St × List Eff :=
  ({ s with sidebarCollapsed := true, containerCollapsed := true,
            ariaExpanded := some "false", ariaLabel := some "Expand sidebar",
            storageSidebar := some "collapsed" },
   [Eff.classAdd "main-sidebar" "is-collapsed",
    Eff.classAdd "main-container" "is-collapsed",
    Eff.setAttr "sidebar-toggle-button" "aria-expanded" "false",
    Eff.setAttr "sidebar-toggle-button" "aria-label" "Expand sidebar",
    Eff.setItem "sidebarState" "collapsed"])

/-- `expandSidebar` of the script: removes is-collapsed from both class
lists, sets aria-expanded to "true" and aria-label to "Collapse
sidebar", and persists "expanded". -/
def expandSidebar (s : St) : St × List Eff :=
  ({ s with sidebarCollapsed := false, containerCollapsed := false,
            ariaExpanded := some "true", ariaLabel := some "Collapse sidebar",
            storageSidebar := some "expanded" },
   [Eff.classRemove "main-sidebar" "is-collapsed",
    Eff.classRemove "main-container" "is-collapsed",
    Eff.setAttr "sidebar-toggle-button" "aria-expanded" "true",
    Eff.setAttr "sidebar-toggle-button" "aria-label" "Collapse sidebar",
    Eff.setItem "sidebarState" "expanded"])

/-- The guard of the sidebar module: all three DOM handles (sidebar
panel, layout container, toggle button) exist. -/
def sidebarHandlesPresent (env : Env) : Bool :=
  env.sidebarPresent && env.containerPresent && env.buttonPresent

/-- The sidebar module body run at page load: exits at once when any of
the three DOM handles is missing; otherwise reads the stored
"sidebarState" value, applies the collapsed visual state when it equals
"collapsed", and registers the click listener on the toggle button. -/
def sidebarInit (env : Env) (s : St) : St × List Eff :=
  if sidebarHandlesPresent env then
    let readEffs := [Eff.getItem "sidebarState"]
    let p :=
      if s.storageSidebar = some "collapsed" then collapseSidebar s else (s, [])
    (p.1, readEffs ++ p.2 ++ [Eff.addListener "sidebar-toggle-button" "click"])
  else (s, [])

/-- The click handler of the sidebar toggle button: inspects whether the
sidebar class list contains is-collapsed and invokes the opposite
operation. -/
def sidebarClick (s : St) : St × List Eff :=
  if s.sidebarCollapsed then expandSidebar s else collapseSidebar s

/-- The opposite of a theme value in the two-valued domain. -/
def oppTheme (v : String) : String :=
  if v = "dark" then "light" else "dark"

/-- A page state with every attribute unset, the checkbox unchecked, the
storage empty and the sidebar rendered expanded: the browser default. -/
def st0 : St :=
  { dataTheme := none, checkboxChecked := false, storageTheme := none,
    storageSidebar := none, sidebarCollapsed := false,
    containerCollapsed := false, ariaExpanded := none, ariaLabel := none }

/-- An environment with every element present and a light system
preference. -/
def envAll : Env :=
  { checkboxPresent := true, sidebarPresent := true, containerPresent := true,
    buttonPresent := true, prefersDark := false }

/-- An environment with every element present and a dark system
preference. -/
def envAllDark : Env :=
  { checkboxPresent := true, sidebarPresent := true, containerPresent := true,
    buttonPresent := true, prefersDark := true }

/-- An environment where the sidebar toggle button is missing. -/
def envNoButton : Env :=
  { checkboxPresent := true, sidebarPresent := true, containerPresent := true,
    buttonPresent := false, prefersDark := false }

/-- C1: after any user-triggered transition completes, the persisted
value for that controller's storage key equals the currently rendered
visual state: after the change handler `toggleTheme` runs, the stored
theme equals the data-theme attribute, and after the sidebar toggle
click handler runs, the stored sidebar state is "collapsed" exactly when
the is-collapsed class is rendered, on both the sidebar and the
container. -/
theorem persisted_matches_rendered (s : St) :
    (toggleTheme s).1.storageTheme = (toggleTheme s).1.dataTheme ∧
    (sidebarClick s).1.storageSidebar =
      some (if (sidebarClick s).1.sidebarCollapsed then "collapsed" else "expanded") ∧
    (sidebarClick s).1.containerCollapsed = (sidebarClick s).1.sidebarCollapsed := by
  refine ⟨by simp [toggleTheme], ?_, ?_⟩ <;>
    · unfold sidebarClick
      split <;> simp [expandSidebar, collapseSidebar]

/-- C2: `toggleTheme` reads the rendered theme, flips it, writes the new
value to the page attribute and persists the same value: starting from a
rendered theme v in the two-valued domain, afterwards the rendered theme
is the opposite of v and the persisted preference equals the rendered
theme. -/
theorem toggleTheme_flips (s : St) (v : String)
    (hv : s.dataTheme = some v) (hdom : v = "light" ∨ v = "dark") :
    (toggleTheme s).1.dataTheme = some (oppTheme v) ∧
    (toggleTheme s).1.storageTheme = some (oppTheme v) := by
  rcases hdom with h | h <;> subst h <;>
    simp [toggleTheme, jsTruthy, oppTheme, hv]

/-- Witness for the theorem of C2 at the concrete rendered theme
light. -/
theorem toggleTheme_flips_witness :
    (toggleTheme { st0 with dataTheme := some "light" }).1.dataTheme =
      some (oppTheme "light") ∧
    (toggleTheme { st0 with dataTheme := some "light" }).1.storageTheme =
      some (oppTheme "light") :=
  toggleTheme_flips { st0 with dataTheme := some "light" } "light" rfl (Or.inl rfl)

/-- C4: `collapseSidebar` adds the is-collapsed marker to both elements,
sets aria-expanded to "false" and the label to "Expand sidebar", and
persists "collapsed"; `expandSidebar` does the exact inverse; hence from
either rendered state, invoking the opposite operation yields the other
state with both DOM markers and the persisted value agreeing with the
new state. -/
theorem sidebar_ops_invert (s : St) :
    ((collapseSidebar s).1.sidebarCollapsed = true ∧
     (collapseSidebar s).1.containerCollapsed = true ∧
     (collapseSidebar s).1.ariaExpanded = some "false" ∧
     (collapseSidebar s).1.ariaLabel = some "Expand sidebar" ∧
     (collapseSidebar s).1.storageSidebar = some "collapsed") ∧
    ((expandSidebar s).1.sidebarCollapsed = false ∧
     (expandSidebar s).1.containerCollapsed = false ∧
     (expandSidebar s).1.ariaExpanded = some "true" ∧
     (expandSidebar s).1.ariaLabel = some "Collapse sidebar" ∧
     (expandSidebar s).1.storageSidebar = some "expanded") := by
  simp [collapseSidebar, expandSidebar]

/-- C5: when any of the three DOM handles is absent, the sidebar module
is inert: the state is unchanged (no DOM mutation, no storage write) and
the effect trace is empty (no storage read, no listener registration);
being a total function, the module body also raises no exception. -/
theorem sidebar_inert (env : Env) (s : St)
    (h : sidebarHandlesPresent env = false) :
    sidebarInit env s = (s, []) := by
  simp [sidebarInit, h]

/-- Witness for the theorem of C5: with the toggle button missing, the
module leaves the default state untouched and performs no effect. -/
theorem sidebar_inert_witness : sidebarInit envNoButton st0 = (st0, []) :=
  sidebar_inert envNoButton st0 (by decide)

/-- Counterexample to C3 as stated: with empty storage, a light system
preference and the attribute initially unset, the module does not set
the page-level attribute to the resolved light default — the attribute
stays unset after the load. -/
theorem themeInit_no_light_write :
    (themeInit envAll st0).1.dataTheme = none ∧
    ¬ (themeInit envAll st0).1.dataTheme = some "light" := by
  constructor <;> decide

/-- C3 amended: at page load the theme controller resolves the
effective theme with precedence (1) stored preference, (2) system
color-scheme preference, (3) default light, and applies the stored or
system-derived theme by setting the page-level attribute; the checkbox,
when present, reflects the resolved theme from its default unchecked
state: it is set checked when the resolution is dark (a stored "dark"
or a dark system preference) and left untouched otherwise.  When the
resolution falls through to the light default, however, no attribute
write occurs and the page state is left unchanged.  In particular a
stored preference of "light" renders light regardless of system
preference. -/
theorem themeInit_precedence (env : Env) (s : St) (v : String) (hv : v ≠ "") :
    (s.storageTheme = some v → (themeInit env s).1.dataTheme = some v) ∧
    (s.storageTheme = some "dark" → env.checkboxPresent = true →
      (themeInit env s).1.checkboxChecked = true) ∧
    (s.storageTheme = some v → v ≠ "dark" →
      (themeInit env s).1.checkboxChecked = s.checkboxChecked) ∧
    (s.storageTheme = none → env.prefersDark = true →
      (themeInit env s).1.dataTheme = some "dark" ∧
      (env.checkboxPresent = true → (themeInit env s).1.checkboxChecked = true)) ∧
    (s.storageTheme = none → env.prefersDark = false →
      (themeInit env s).1 = s) ∧
    (s.storageTheme = some "light" →
      (themeInit env s).1.dataTheme = some "light") := by
  refine ⟨?_, ?_, ?_, ?_, ?_, ?_⟩
  · intro hst
    unfold themeInit
    simp [hst, jsTruthy, hv]
    split <;> simp
  · intro hst hcb
    unfold themeInit
    simp [hst, jsTruthy, hcb]
  · intro hst hne
    unfold themeInit
    simp [hst, jsTruthy, hv, hne]
  · intro hst hd
    refine ⟨?_, ?_⟩
    · unfold themeInit
      simp [hst, jsTruthy, hd]
      split <;> simp
    · intro hcb
      unfold themeInit
      simp [hst, jsTruthy, hd, hcb]
  · intro hst hd
    unfold themeInit
    simp [hst, jsTruthy, hd]
  · intro hst
    unfold themeInit
    simp [hst, jsTruthy]

/-- Witness for the amended theorem of C3: a stored preference of
"light" renders light even under a dark system preference, and a stored
preference of "dark" checks the present checkbox. -/
theorem themeInit_precedence_witness :
    (themeInit envAllDark { st0 with storageTheme := some "light" }).1.dataTheme =
      some "light" ∧
    (themeInit envAll { st0 with storageTheme := some "dark" }).1.checkboxChecked =
      true :=
  ⟨(themeInit_precedence envAllDark { st0 with storageTheme := some "light" }
      "light" (by decide)).1 rfl,
   (themeInit_precedence envAll { st0 with storageTheme := some "dark" }
      "dark" (by decide)).2.1 rfl rfl⟩

/-- C6: with all three handles present and a stored sidebar state of
"collapsed", the load applies the collapsed visual state: both elements
carry the marker, aria-expanded is "false" and the label is "Expand
sidebar"; for any other stored value the rendered state is left exactly
as it was, keeping the default expanded rendering. -/
theorem sidebarInit_applies_stored (env : Env) (s : St)
    (hp : sidebarHandlesPresent env = true) :
    (s.storageSidebar = some "collapsed" →
      (sidebarInit env s).1.sidebarCollapsed = true ∧
      (sidebarInit env s).1.containerCollapsed = true ∧
      (sidebarInit env s).1.ariaExpanded = some "false" ∧
      (sidebarInit env s).1.ariaLabel = some "Expand sidebar") ∧
    (s.storageSidebar ≠ some "collapsed" → (sidebarInit env s).1 = s) := by
  constructor
  · intro hc
    simp [sidebarInit, hp, hc, collapseSidebar]
  · intro hc
    simp [sidebarInit, hp, hc]

/-- Witness for the theorem of C6: starting from the default page state
with sidebarState = "collapsed" in storage, the load renders the sidebar
collapsed with the matching aria attributes. -/
theorem sidebarInit_applies_stored_witness :
    (sidebarInit envAll { st0 with storageSidebar := some "collapsed" }).1.sidebarCollapsed = true ∧
    (sidebarInit envAll { st0 with storageSidebar := some "collapsed" }).1.containerCollapsed = true ∧
    (sidebarInit envAll { st0 with storageSidebar := some "collapsed" }).1.ariaExpanded = some "false" ∧
    (sidebarInit envAll { st0 with storageSidebar := some "collapsed" }).1.ariaLabel = some "Expand sidebar" :=
  (sidebarInit_applies_stored envAll { st0 with storageSidebar := some "collapsed" }
    (by decide)).1 rfl

/-- C7: with no stored theme preference and a dark system preference,
the load renders the page dark and checks the checkbox when it is
present. -/
theorem themeInit_system_dark (env : Env) (s : St)
    (hst : s.storageTheme = none) (hd : env.prefersDark = true) :
    (themeInit env s).1.dataTheme = some "dark" ∧
    (env.checkboxPresent = true → (themeInit env s).1.checkboxChecked = true) := by
  constructor
  · unfold themeInit
    simp [hst, jsTruthy, hd]
    split <;> simp
  · intro hcb
    unfold themeInit
    simp [hst, jsTruthy, hd, hcb]

/-- Witness for the theorem of C7: empty storage and a dark system
preference render dark with the checkbox checked. -/
theorem themeInit_system_dark_witness :
    (themeInit envAllDark st0).1.dataTheme = some "dark" ∧
    (envAllDark.checkboxPresent = true →
      (themeInit envAllDark st0).1.checkboxChecked = true) :=
  themeInit_system_dark envAllDark st0 rfl rfl

/-- C8: the theme load never writes to storage — the stored theme value
is unchanged (so a system-derived dark rendering leaves it absent) and
the load trace contains no storage write for any key; within the theme
controller only `toggleTheme` writes the theme key, emitting exactly one
such write, of the value it renders; the sidebar module never writes the
theme key. -/
theorem themeInit_writes_nothing (env : Env) (s : St) :
    (themeInit env s).1.storageTheme = s.storageTheme ∧
    (∀ k v, Eff.setItem k v ∉ (themeInit env s).2) ∧
    (∃ v, (toggleTheme s).2 =
        [Eff.setAttr "documentElement" "data-theme" v, Eff.setItem "theme" v] ∧
      (toggleTheme s).1.storageTheme = some v ∧
      (toggleTheme s).1.dataTheme = some v) ∧
    (∀ v, Eff.setItem "theme" v ∉ (sidebarInit env s).2) ∧
    (∀ v, Eff.setItem "theme" v ∉ (sidebarClick s).2) := by
  refine ⟨?_, ?_, ⟨_, rfl, rfl, rfl⟩, ?_, ?_⟩
  · simp only [themeInit]
    split_ifs <;> simp
  · intro k v
    simp only [themeInit]
    split_ifs <;> simp
  · intro v
    simp only [sidebarInit]
    split_ifs <;> simp [collapseSidebar]
  · intro v
    unfold sidebarClick
    split <;> simp [expandSidebar, collapseSidebar]

/-- C9: the theme load copies a truthy stored string to the page
attribute verbatim, with no validation against the two-valued domain;
the checkbox ends up checked exactly when the stored string is "dark"
and the checkbox exists (starting from the default unchecked state); a
subsequent `toggleTheme` from any rendered value other than exactly
"dark" yields "dark", and one toggle always lands back in the
two-valued domain. -/
theorem themeInit_verbatim (env : Env) (s : St) (v : String)
    (hv : v ≠ "") (hst : s.storageTheme = some v)
    (hcb : s.checkboxChecked = false) :
    (themeInit env s).1.dataTheme = some v ∧
    ((themeInit env s).1.checkboxChecked = true ↔
      (v = "dark" ∧ env.checkboxPresent = true)) ∧
    (∀ t : St, t.dataTheme.getD "" ≠ "dark" →
      (toggleTheme t).1.dataTheme = some "dark") ∧
    (∀ t : St, (toggleTheme t).1.dataTheme = some "light" ∨
      (toggleTheme t).1.dataTheme = some "dark") := by
  refine ⟨?_, ?_, ?_, ?_⟩
  · unfold themeInit
    simp [hst, jsTruthy, hv]
    split <;> simp
  · unfold themeInit
    simp [hst, jsTruthy, hv]
    split <;> simp_all
  · intro t ht
    unfold toggleTheme
    rcases hdt : t.dataTheme with _ | w
    · simp [jsTruthy]
    · rw [hdt] at ht
      simp only [Option.getD_some] at ht
      by_cases hw : w = ""
      · subst hw
        simp [jsTruthy, hdt]
      · simp [jsTruthy, hdt, hw, ht]
  · intro t
    unfold toggleTheme
    by_cases hc :
        (if jsTruthy t.dataTheme = true then t.dataTheme.getD "light" else "light") =
          "dark"
    · simp [hc]
    · simp [hc]

/-- Witness for the theorem of C9 at the out-of-domain stored string
"purple": the load copies it verbatim to the page attribute. -/
theorem themeInit_verbatim_witness :
    (themeInit envAll { st0 with storageTheme := some "purple" }).1.dataTheme =
      some "purple" :=
  (themeInit_verbatim envAll { st0 with storageTheme := some "purple" } "purple"
    (by decide) rfl rfl).1

/-- C10: the sidebar load never changes the stored value: when the
stored state is "collapsed" (and the handles exist) it re-writes the
identical value "collapsed" through `collapseSidebar`; for any other
stored value it performs no storage write at all; in every case the
stored sidebar value after the load equals the value before it. -/
theorem sidebarInit_preserves_storage (env : Env) (s : St) :
    (sidebarInit env s).1.storageSidebar = s.storageSidebar ∧
    (sidebarHandlesPresent env = true → s.storageSidebar = some "collapsed" →
      Eff.setItem "sidebarState" "collapsed" ∈ (sidebarInit env s).2) ∧
    (s.storageSidebar ≠ some "collapsed" →
      ∀ k v, Eff.setItem k v ∉ (sidebarInit env s).2) := by
  refine ⟨?_, ?_, ?_⟩
  · unfold sidebarInit
    split
    · split
      · next hc => simp [collapseSidebar, hc]
      · simp
    · simp
  · intro hp hc
    simp [sidebarInit, hp, hc, collapseSidebar]
  · intro hc k v
    unfold sidebarInit
    split
    · simp [hc]
    · simp

end Gradely
